import Mathlib

/-!
Shallow embedding of the sound-inactivity monitor core
(`src/src-tauri/src/inactivity.rs` and the relevant commands from
`src/src-tauri/src/lib.rs`).

Modelling choices:
* `Duration` is a number of nanoseconds (`Nat`), exactly the information a
  Rust `std::time::Duration` carries; `as_secs` is integer division.
* Audio volume is a rational number; the `f32` literals `0.0`, `0.02`, `1.0`
  of the source are mapped to the exact rationals `0`, `2/100`, `1`.
* Platform calls (idle query, volume/mute get/set) are modelled with an
  explicit fault flag per call kind; each tick returns the list of platform
  calls it attempted, in order, and `Except` captures `?`-propagation.
* The global `AtomicU64` threshold cell is a `ThresholdStore` value threaded
  explicitly; the `OnceLock` monitor guard is an `Option` threaded explicitly
  through a sequence of (linearised) `start_monitor` calls.
-/

/-- A `std::time::Duration`, measured in nanoseconds. -/
abbrev Duration := Nat

/-- `Duration::from_secs`. -/
def Duration.fromSecs (s : Nat) : Duration := s * 1000000000

/-- `Duration::from_millis`. -/
def Duration.fromMillis (ms : Nat) : Duration := ms * 1000000

/-- `Duration::as_secs`: whole seconds, rounded down. -/
def Duration.asSecs (d : Duration) : Nat := d / 1000000000

/-- `Duration::is_zero`. -/
def Duration.isZero (d : Duration) : Bool := d == 0

/-- `const DEFAULT_INACTIVITY_THRESHOLD_SECS: u64 = 5 * 60;` -/
def DEFAULT_INACTIVITY_THRESHOLD_SECS : Nat := 5 * 60

/-- `const QUIET_VOLUME_LEVEL: f32 = 0.0;` -/
def QUIET_VOLUME_LEVEL : ℚ := 0

/-- `const VOLUME_EPSILON: f32 = 0.02;` -/
def VOLUME_EPSILON : ℚ := 2 / 100

/-- The state of the global `INACTIVITY_THRESHOLD_SECS: AtomicU64` cell. -/
structure ThresholdStore where
  secs : Nat
deriving DecidableEq, Repr

/-- `static INACTIVITY_THRESHOLD_SECS: AtomicU64 =
AtomicU64::new(DEFAULT_INACTIVITY_THRESHOLD_SECS);` -/
def initial_threshold_store : ThresholdStore :=
  ⟨DEFAULT_INACTIVITY_THRESHOLD_SECS⟩

/-- Error message returned by `set_inactivity_threshold` for a zero duration
(also returned by the `set_sound_inactivity_timeout` command for zero
minutes). -/
def zero_threshold_msg : String :=
  "O tempo de inatividade deve ser maior que zero."

/-- Error message of the non-Windows branches of `lib.rs`. -/
def unsupported_msg : String :=
  "Funcionalidade disponivel apenas no Windows."

/-- `fn set_inactivity_threshold(duration: Duration) -> Result<(), String>`:
rejects a zero duration without touching the store; otherwise stores
`duration.as_secs().max(1)`. Returns the Rust result together with the store
after the call. -/
def set_inactivity_threshold (duration : Duration) (st : ThresholdStore) :
    Except String Unit × ThresholdStore :=
  if duration.isZero then (Except.error zero_threshold_msg, st)
  else (Except.ok (), ⟨max duration.asSecs 1⟩)

/-- `fn inactivity_threshold() -> Duration`: loads the atomic, applies
`.max(1)`, and converts whole seconds to a `Duration`. -/
def inactivity_threshold (st : ThresholdStore) : Duration :=
  Duration.fromSecs (max st.secs 1)

/-- `u64::saturating_sub`. -/
def u64_saturating_sub (a b : Nat) : Nat :=
  if b ≤ a then a - b else 0

/-- The arithmetic of `fn idle_time()` after a successful
`GetLastInputInfo`: `current` is `GetTickCount64()` and `lastInput` is
`u64::from(info.dwTime)`; the idle duration is
`current.saturating_sub(last_input)` milliseconds. -/
def idle_time_ms (current lastInput : Nat) : Nat :=
  u64_saturating_sub current lastInput

/-- The `Duration` produced by a successful `idle_time()` call. -/
def idle_time_ok (current lastInput : Nat) : Duration :=
  Duration.fromMillis (idle_time_ms current lastInput)

/-- The clamp performed by `fn set_volume`: `level.clamp(0.0, 1.0)`. -/
def clamp01 (level : ℚ) : ℚ := min (max level 0) 1

/-- The audio endpoint's observable state: master volume scalar and mute
flag. -/
structure Audio where
  volume : ℚ
  muted : Bool
deriving DecidableEq, Repr

/-- The local state of `monitor_loop`: `lowered`, `previous_volume`,
`previous_mute_state`. -/
structure EngineState where
  lowered : Bool
  previous_volume : ℚ
  previous_mute_state : Bool
deriving DecidableEq, Repr

/-- `let mut lowered = false; let mut previous_volume = 1.0;
let mut previous_mute_state = false;` -/
def initial_engine_state : EngineState :=
  ⟨false, 1, false⟩

/-- One platform call attempted by a tick of the loop (the argument of a
write call is the value handed to the platform, after clamping). -/
inductive PlatformCall where
  | idleQuery : PlatformCall
  | getVolume : PlatformCall
  | getMute : PlatformCall
  | setMute : Bool → PlatformCall
  | setVolume : ℚ → PlatformCall
deriving DecidableEq, Repr

/-- Fault injection for one tick: which kind of platform call fails. -/
structure Faults where
  idleFails : Bool
  getVolumeFails : Bool
  getMuteFails : Bool
  setMuteFails : Bool
  setVolumeFails : Bool
deriving DecidableEq, Repr

/-- The fault-free platform. -/
def no_faults : Faults := ⟨false, false, false, false, false⟩

/-- Whether a given call fails under a fault assignment. -/
def call_fails (f : Faults) : PlatformCall → Bool
  | PlatformCall.idleQuery => f.idleFails
  | PlatformCall.getVolume => f.getVolumeFails
  | PlatformCall.getMute => f.getMuteFails
  | PlatformCall.setMute _ => f.setMuteFails
  | PlatformCall.setVolume _ => f.setVolumeFails

/-- Tail of the `NORMAL → LOWERED` transition after the snapshot and the
conditional mute: `if (current - QUIET_VOLUME_LEVEL).abs() > VOLUME_EPSILON
{ set_volume(&endpoint, QUIET_VOLUME_LEVEL)?; } lowered = true;`
(`es1.previous_volume` holds the `current` just read). -/
def lower_volume_step (f : Faults) (es1 : EngineState) (au1 : Audio)
    (calls : List PlatformCall) :
    Except PlatformCall (EngineState × Audio) × List PlatformCall :=
  if VOLUME_EPSILON < |es1.previous_volume - QUIET_VOLUME_LEVEL| then
    if f.setVolumeFails then
      (Except.error (PlatformCall.setVolume (clamp01 QUIET_VOLUME_LEVEL)),
        calls ++ [PlatformCall.setVolume (clamp01 QUIET_VOLUME_LEVEL)])
    else
      (Except.ok ({ es1 with lowered := true },
          { au1 with volume := clamp01 QUIET_VOLUME_LEVEL }),
        calls ++ [PlatformCall.setVolume (clamp01 QUIET_VOLUME_LEVEL)])
  else
    (Except.ok ({ es1 with lowered := true }, au1), calls)

/-- One iteration of the `loop` body of `fn monitor_loop` (everything except
the final `thread::sleep(POLL_INTERVAL)`): reads the threshold from the
store, reads idle time (which may fail), and applies the state-machine rule,
propagating the first platform failure. Returns the result together with the
ordered list of platform calls the iteration attempted. -/
def monitor_tick (f : Faults) (store : ThresholdStore) (idleMs : Nat)
    (es : EngineState) (au : Audio) :
    Except PlatformCall (EngineState × Audio) × List PlatformCall :=
  let threshold := inactivity_threshold store
  if f.idleFails then
    (Except.error PlatformCall.idleQuery, [PlatformCall.idleQuery])
  else
    let idle := Duration.fromMillis idleMs
    if threshold ≤ idle then
      if es.lowered then (Except.ok (es, au), [PlatformCall.idleQuery])
      else if f.getVolumeFails then
        (Except.error PlatformCall.getVolume,
          [PlatformCall.idleQuery, PlatformCall.getVolume])
      else if f.getMuteFails then
        (Except.error PlatformCall.getMute,
          [PlatformCall.idleQuery, PlatformCall.getVolume,
            PlatformCall.getMute])
      else
        let es1 : EngineState :=
          { es with
              previous_volume := au.volume
              previous_mute_state := au.muted }
        if au.muted then
          lower_volume_step f es1 au
            [PlatformCall.idleQuery, PlatformCall.getVolume,
              PlatformCall.getMute]
        else if f.setMuteFails then
          (Except.error (PlatformCall.setMute true),
            [PlatformCall.idleQuery, PlatformCall.getVolume,
              PlatformCall.getMute, PlatformCall.setMute true])
        else
          lower_volume_step f es1 { au with muted := true }
            [PlatformCall.idleQuery, PlatformCall.getVolume,
              PlatformCall.getMute, PlatformCall.setMute true]
    else
      if es.lowered then
        let target := clamp01 es.previous_volume
        if f.setVolumeFails then
          (Except.error (PlatformCall.setVolume target),
            [PlatformCall.idleQuery, PlatformCall.setVolume target])
        else
          let au1 := { au with volume := target }
          if es.previous_mute_state then
            (Except.ok ({ es with lowered := false }, au1),
              [PlatformCall.idleQuery, PlatformCall.setVolume target])
          else if f.setMuteFails then
            (Except.error (PlatformCall.setMute false),
              [PlatformCall.idleQuery, PlatformCall.setVolume target,
                PlatformCall.setMute false])
          else
            (Except.ok ({ es with lowered := false },
                { au1 with muted := false }),
              [PlatformCall.idleQuery, PlatformCall.setVolume target,
                PlatformCall.setMute false])
      else (Except.ok (es, au), [PlatformCall.idleQuery])

/-- Environment of one tick: the per-tick fault assignment, the threshold
store as the tick's atomic load observes it, and the millisecond idle time
the OS reports. -/
structure TickInput where
  faults : Faults
  store : ThresholdStore
  idleMs : Nat

/-- `fn monitor_loop`, run over a finite trace of tick environments: the
loop stops and returns the first tick error (the real loop is infinite on
the fault-free path; the empty-trace case just reports the state reached).
Also accumulates every platform call made across the run. -/
def monitor_loop : List TickInput → EngineState → Audio →
    Except PlatformCall (EngineState × Audio) × List PlatformCall
  | [], es, au => (Except.ok (es, au), [])
  | t :: rest, es, au =>
    match monitor_tick t.faults t.store t.idleMs es au with
    | (Except.ok (es', au'), calls) =>
      let r := monitor_loop rest es' au'
      (r.1, calls ++ r.2)
    | (Except.error e, calls) => (Except.error e, calls)

/-- `fn start_monitor`: `MONITOR.get_or_init(spawn).clone()`. `monitor` is
the `OnceLock` contents before the call, `spawn_result` the outcome the
single spawn attempt would produce. Returns (result returned to the caller,
`OnceLock` contents after the call, whether this call performed the spawn).
-/
def start_monitor (spawn_result : Except String Unit)
    (monitor : Option (Except String Unit)) :
    Except String Unit × Option (Except String Unit) × Bool :=
  match monitor with
  | some r => (r, some r, false)
  | none => (spawn_result, some spawn_result, true)

/-- A linearised sequence of `n` `start_monitor` calls (the `OnceLock`
serialises concurrent initialisation, so any concurrent execution of the
calls is equivalent to some such sequence). Returns the list of results the
callers observe, the final `OnceLock` contents, and how many of the calls
performed a spawn. -/
def start_monitor_calls (spawn_result : Except String Unit) :
    Nat → Option (Except String Unit) →
    List (Except String Unit) × Option (Except String Unit) × Nat
  | 0, m => ([], m, 0)
  | Nat.succ n, m =>
    let s := start_monitor spawn_result m
    let rest := start_monitor_calls spawn_result n s.2.1
    (s.1 :: rest.1, rest.2.1, rest.2.2 + (if s.2.2 then 1 else 0))

/-- `u64::saturating_mul`. -/
def u64_saturating_mul (a b : Nat) : Nat :=
  min (a * b) (2 ^ 64 - 1)

/-- The `set_sound_inactivity_timeout` tauri command of `lib.rs`:
`minutes.unwrap_or(5)`; zero minutes is rejected; on Windows the minutes are
converted to seconds with saturating multiplication and forwarded to
`set_inactivity_threshold`; on any other platform the command fails with the
unsupported-platform message. -/
def set_sound_inactivity_timeout (windowsPlatform : Bool)
    (minutes : Option Nat) (st : ThresholdStore) :
    Except String Unit × ThresholdStore :=
  let m := minutes.getD 5
  if m == 0 then (Except.error zero_threshold_msg, st)
  else if windowsPlatform then
    set_inactivity_threshold (Duration.fromSecs (u64_saturating_mul m 60)) st
  else (Except.error unsupported_msg, st)

/-- `fn init_sound_inactivity_monitor` of `lib.rs`: spawns an init thread
and returns `()` to its caller; the thread calls `start_monitor` on Windows
(logging its error, if any) and on any other platform logs the
unsupported-platform message. `start_result` is the outcome
`inactivity::start_monitor()` would produce. Returns the unit value the
caller sees together with the error lines the init thread logs. -/
def init_sound_inactivity_monitor (windowsPlatform : Bool)
    (start_result : Except String Unit) : Unit × List String :=
  if windowsPlatform then
    match start_result with
    | Except.ok _ => ((), [])
    | Except.error e =>
      ((), ["[sound-inactive] falha ao iniciar monitoramento de inatividade sonora: " ++ e])
  else ((), [unsupported_msg])

/-! Helper lemmas characterising one tick of `monitor_loop` in each regime. -/

/-- Fault-free `NORMAL → LOWERED` tick: snapshot, conditional mute,
conditional volume lowering. -/
theorem monitor_tick_lower (f : Faults) (store : ThresholdStore)
    (idleMs : Nat) (es : EngineState) (au : Audio)
    (hf : f = no_faults) (hlow : es.lowered = false)
    (hidle : inactivity_threshold store ≤ Duration.fromMillis idleMs) :
    monitor_tick f store idleMs es au =
      (Except.ok
        ((⟨true, au.volume, au.muted⟩ : EngineState),
          ⟨if VOLUME_EPSILON < |au.volume - QUIET_VOLUME_LEVEL|
              then clamp01 QUIET_VOLUME_LEVEL else au.volume, true⟩),
        [PlatformCall.idleQuery, PlatformCall.getVolume, PlatformCall.getMute]
          ++ (if au.muted then [] else [PlatformCall.setMute true])
          ++ (if VOLUME_EPSILON < |au.volume - QUIET_VOLUME_LEVEL|
              then [PlatformCall.setVolume (clamp01 QUIET_VOLUME_LEVEL)]
              else [])) := by
  subst hf
  obtain ⟨lo, pv, pm⟩ := es
  obtain ⟨v, m⟩ := au
  simp only at hlow
  subst hlow
  simp only [monitor_tick, lower_volume_step, no_faults, hidle, if_true,
    if_false, Bool.false_eq_true, ite_false]
  cases m <;> simp <;> split_ifs <;> simp_all

/-- `LOWERED → NORMAL` tick with the write calls fault-free: restore the
snapshot volume (clamped), then unmute only if the snapshot was unmuted. -/
theorem monitor_tick_restore (f : Faults) (store : ThresholdStore)
    (idleMs : Nat) (es : EngineState) (au : Audio)
    (hi : f.idleFails = false) (hsv : f.setVolumeFails = false)
    (hsm : f.setMuteFails = false) (hlow : es.lowered = true)
    (hidle : Duration.fromMillis idleMs < inactivity_threshold store) :
    monitor_tick f store idleMs es au =
      (Except.ok ({ es with lowered := false },
          ⟨clamp01 es.previous_volume,
            if es.previous_mute_state then au.muted else false⟩),
        [PlatformCall.idleQuery,
          PlatformCall.setVolume (clamp01 es.previous_volume)]
          ++ (if es.previous_mute_state then []
              else [PlatformCall.setMute false])) := by
  obtain ⟨lo, pv, pm⟩ := es
  obtain ⟨v, m⟩ := au
  simp only at hlow
  subst hlow
  simp only [monitor_tick, hi, not_le.mpr hidle, if_false, Bool.false_eq_true,
    ite_false, hsv, hsm]
  cases pm <;> simp

/-- Tick while already `LOWERED` with idle time still above threshold: the
state holds, only the idle query happens. -/
theorem monitor_tick_hold_lowered (f : Faults) (store : ThresholdStore)
    (idleMs : Nat) (es : EngineState) (au : Audio)
    (hi : f.idleFails = false) (hlow : es.lowered = true)
    (hidle : inactivity_threshold store ≤ Duration.fromMillis idleMs) :
    monitor_tick f store idleMs es au =
      (Except.ok (es, au), [PlatformCall.idleQuery]) := by
  simp only [monitor_tick, hi, hidle, hlow, if_true, if_false,
    Bool.false_eq_true, ite_false, ite_true]

/-- Tick while `NORMAL` with idle time below threshold: nothing happens. -/
theorem monitor_tick_hold_normal (f : Faults) (store : ThresholdStore)
    (idleMs : Nat) (es : EngineState) (au : Audio)
    (hi : f.idleFails = false) (hlow : es.lowered = false)
    (hidle : Duration.fromMillis idleMs < inactivity_threshold store) :
    monitor_tick f store idleMs es au =
      (Except.ok (es, au), [PlatformCall.idleQuery]) := by
  simp only [monitor_tick, hi, not_le.mpr hidle, hlow, if_true, if_false,
    Bool.false_eq_true, ite_false, ite_true]

/-- While `LOWERED` with idle time above threshold on every tick, the whole
run holds the state and performs only idle queries. -/
theorem monitor_loop_hold_lowered (ts : List TickInput) (es : EngineState)
    (au : Audio) (hlow : es.lowered = true)
    (hts : ∀ t ∈ ts, t.faults.idleFails = false ∧
      inactivity_threshold t.store ≤ Duration.fromMillis t.idleMs) :
    monitor_loop ts es au =
      (Except.ok (es, au), ts.map fun _ => PlatformCall.idleQuery) := by
  induction ts with
  | nil => simp [monitor_loop]
  | cons t rest ih =>
    obtain ⟨h1, h2⟩ := hts t (List.mem_cons_self t rest)
    have ht := monitor_tick_hold_lowered t.faults t.store t.idleMs es au h1
      hlow h2
    have ihr := ih fun u hu => hts u (List.mem_cons_of_mem t hu)
    simp [monitor_loop, ht, ihr]

/-- The loop stops at the first tick error and returns it unchanged: later
tick environments are never processed. -/
theorem monitor_loop_cons_error (t : TickInput) (rest : List TickInput)
    (es : EngineState) (au : Audio) (e : PlatformCall)
    (calls : List PlatformCall)
    (h : monitor_tick t.faults t.store t.idleMs es au =
      (Except.error e, calls)) :
    monitor_loop (t :: rest) es au = (Except.error e, calls) := by
  rw [monitor_loop, h]

set_option maxHeartbeats 1000000 in
/-- Any tick failure aborts the tick at the failing call: the failing call
is the last one attempted, and every call attempted before it succeeded. -/
theorem monitor_tick_error_shape (f : Faults) (store : ThresholdStore)
    (idleMs : Nat) (es : EngineState) (au : Audio) (e : PlatformCall)
    (calls : List PlatformCall)
    (h : monitor_tick f store idleMs es au = (Except.error e, calls)) :
    calls.getLast? = some e ∧ call_fails f e = true ∧
      ∀ c ∈ calls.dropLast, call_fails f c = false := by
  simp only [monitor_tick, lower_volume_step] at h
  split_ifs at h <;>
    simp only [Prod.mk.injEq, Except.error.injEq] at h <;>
    first
    | (obtain ⟨rfl, rfl⟩ := h
       simp_all [call_fails])
    | simp_all [call_fails]

/-- Once the `OnceLock` holds `r`, every further `start_monitor` call
returns `r` and never spawns again. -/
theorem start_monitor_calls_filled (spawn r : Except String Unit) (n : Nat) :
    start_monitor_calls spawn n (some r) = (List.replicate n r, some r, 0) := by
  induction n with
  | zero => rfl
  | succ n ih => simp [start_monitor_calls, start_monitor, ih, List.replicate_succ]

/-! Claim theorems. -/

/-- C1: for every duration `t > 0`, `set_inactivity_threshold` succeeds and
the stored shared threshold becomes `max(1, floor-to-whole-seconds(t))`;
the `inactivity_threshold` read performed at the top of every tick then
yields exactly `max(1 second, floor(t))`, and a fault-free tick running
against the new store uses it: with idle time at or above the new
threshold and state NORMAL it performs the transition to LOWERED. -/
theorem claim_C1_set_threshold_takes_effect (d : Duration)
    (st : ThresholdStore) (idleMs : Nat) (es : EngineState) (au : Audio)
    (hd : 0 < d) (hlow : es.lowered = false)
    (hidle : Duration.fromSecs (max d.asSecs 1) ≤ Duration.fromMillis idleMs) :
    set_inactivity_threshold d st = (Except.ok (), ⟨max d.asSecs 1⟩) ∧
    inactivity_threshold ⟨max d.asSecs 1⟩ =
      Duration.fromSecs (max 1 d.asSecs) ∧
    (monitor_tick no_faults ⟨max d.asSecs 1⟩ idleMs es au).1 =
      Except.ok ((⟨true, au.volume, au.muted⟩ : EngineState),
        ⟨if VOLUME_EPSILON < |au.volume - QUIET_VOLUME_LEVEL|
            then clamp01 QUIET_VOLUME_LEVEL else au.volume, true⟩) := by
  have hne : d ≠ 0 := Nat.pos_iff_ne_zero.mp hd
  have hmax : max (max d.asSecs 1) 1 = max d.asSecs 1 := by
    simp [max_assoc]
  have hthr : inactivity_threshold ⟨max d.asSecs 1⟩ =
      Duration.fromSecs (max d.asSecs 1) := by
    simp [inactivity_threshold, hmax]
  refine ⟨?_, ?_, ?_⟩
  · simp [set_inactivity_threshold, Duration.isZero, hne]
  · rw [hthr, max_comm]
  · rw [monitor_tick_lower no_faults ⟨max d.asSecs 1⟩ idleMs es au rfl hlow
      (by rw [hthr]; exact hidle)]

/-- Witness for C1 at `t = 2 s`, idle `3000 ms`, starting volume `1`
unmuted. -/
theorem claim_C1_set_threshold_takes_effect_witness :
    set_inactivity_threshold (Duration.fromSecs 2) initial_threshold_store =
      (Except.ok (), ⟨max (Duration.fromSecs 2).asSecs 1⟩) ∧
    inactivity_threshold ⟨max (Duration.fromSecs 2).asSecs 1⟩ =
      Duration.fromSecs (max 1 (Duration.fromSecs 2).asSecs) ∧
    (monitor_tick no_faults ⟨max (Duration.fromSecs 2).asSecs 1⟩ 3000
        initial_engine_state ⟨1, false⟩).1 =
      Except.ok ((⟨true, (1 : ℚ), false⟩ : EngineState),
        ⟨if VOLUME_EPSILON < |(1 : ℚ) - QUIET_VOLUME_LEVEL|
            then clamp01 QUIET_VOLUME_LEVEL else (1 : ℚ), true⟩) :=
  claim_C1_set_threshold_takes_effect (Duration.fromSecs 2)
    initial_threshold_store 3000 initial_engine_state ⟨1, false⟩
    (by decide) rfl (by decide)

/-- C2: a zero duration is rejected with the invalid-threshold error and the
stored threshold value is left exactly as it was. -/
theorem claim_C2_zero_duration_rejected (d : Duration) (st : ThresholdStore)
    (hd : d.isZero = true) :
    set_inactivity_threshold d st = (Except.error zero_threshold_msg, st) := by
  simp [set_inactivity_threshold, hd]

/-- Witness for C2 at duration `0` with stored threshold `300 s`. -/
theorem claim_C2_zero_duration_rejected_witness :
    set_inactivity_threshold 0 ⟨300⟩ =
      (Except.error zero_threshold_msg, ⟨300⟩) :=
  claim_C2_zero_duration_rejected 0 ⟨300⟩ rfl

/-- C5: a linearised sequence of `n + 1` `start_monitor` calls starting from
the empty `OnceLock` performs exactly one spawn attempt, and every call
observes the identical outcome of that single attempt (also when it is a
failure: the lock then holds the error and no retry ever happens). -/
theorem claim_C5_start_idempotent (spawn : Except String Unit) (n : Nat) :
    start_monitor_calls spawn (n + 1) none =
      (List.replicate (n + 1) spawn, some spawn, 1) := by
  simp [start_monitor_calls, start_monitor, start_monitor_calls_filled,
    List.replicate_succ]

/-- C6: the idle-time computation is non-negative for every pair of tick
counters, never exceeds the current tick counter, and clamps to zero when
the last-input timestamp is numerically greater than the current counter. -/
theorem claim_C6_idle_time_clamped (current lastInput : Nat) :
    0 ≤ (idle_time_ms current lastInput : Int) ∧
    idle_time_ms current lastInput ≤ current ∧
    (current < lastInput → idle_time_ms current lastInput = 0) ∧
    idle_time_ok current lastInput =
      Duration.fromMillis (idle_time_ms current lastInput) := by
  refine ⟨Int.natCast_nonneg _, ?_, ?_, rfl⟩
  · unfold idle_time_ms u64_saturating_sub
    split_ifs <;> omega
  · intro h
    unfold idle_time_ms u64_saturating_sub
    rw [if_neg (not_le.mpr h)]

/-- Witness for C6 at `current = 3`, `lastInput = 5` (wrapped counter). -/
theorem claim_C6_idle_time_clamped_witness :
    idle_time_ms 3 5 = 0 ∧ 0 ≤ (idle_time_ms 3 5 : Int) :=
  ⟨(claim_C6_idle_time_clamped 3 5).2.2.1 (by decide),
    (claim_C6_idle_time_clamped 3 5).1⟩

/-- C10: before any successful threshold update the stored shared threshold
is the initial value `5 * 60 = 300` seconds, and that is the threshold the
monitor loop's per-tick read yields. -/
theorem claim_C10_default_threshold :
    DEFAULT_INACTIVITY_THRESHOLD_SECS = 5 * 60 ∧
    initial_threshold_store.secs = 300 ∧
    inactivity_threshold initial_threshold_store = Duration.fromSecs 300 := by
  refine ⟨rfl, rfl, by decide⟩

/-- C3: on a fault-free tick with idle time at or above the threshold and
state NORMAL, exactly one transition to LOWERED happens: the tick snapshots
the current volume and mute flag, issues a mute call only when not already
muted, issues a set-volume(0) call only when the volume differs from 0 by
more than 0.02, and afterwards the endpoint reports muted and a volume
within 0.02 of 0 — for every starting volume/mute combination. -/
theorem claim_C3_lower_transition (store : ThresholdStore) (idleMs : Nat)
    (es : EngineState) (au : Audio)
    (hlow : es.lowered = false)
    (hidle : inactivity_threshold store ≤ Duration.fromMillis idleMs) :
    monitor_tick no_faults store idleMs es au =
      (Except.ok ((⟨true, au.volume, au.muted⟩ : EngineState),
          ⟨if VOLUME_EPSILON < |au.volume - QUIET_VOLUME_LEVEL|
              then clamp01 QUIET_VOLUME_LEVEL else au.volume, true⟩),
        [PlatformCall.idleQuery, PlatformCall.getVolume, PlatformCall.getMute]
          ++ (if au.muted then [] else [PlatformCall.setMute true])
          ++ (if VOLUME_EPSILON < |au.volume - QUIET_VOLUME_LEVEL|
              then [PlatformCall.setVolume (clamp01 QUIET_VOLUME_LEVEL)]
              else [])) ∧
    |(if VOLUME_EPSILON < |au.volume - QUIET_VOLUME_LEVEL|
        then clamp01 QUIET_VOLUME_LEVEL else au.volume) - QUIET_VOLUME_LEVEL|
      ≤ VOLUME_EPSILON := by
  refine ⟨monitor_tick_lower no_faults store idleMs es au rfl hlow hidle, ?_⟩
  split_ifs with h
  · norm_num [clamp01, QUIET_VOLUME_LEVEL, VOLUME_EPSILON]
  · exact not_lt.mp h

/-- Witness for C3 with threshold `1 s`, idle `2000 ms`, starting state
volume `3/4` unmuted. -/
theorem claim_C3_lower_transition_witness :
    monitor_tick no_faults ⟨1⟩ 2000 initial_engine_state ⟨3 / 4, false⟩ =
      (Except.ok ((⟨true, (3 / 4 : ℚ), false⟩ : EngineState),
          ⟨if VOLUME_EPSILON < |(3 / 4 : ℚ) - QUIET_VOLUME_LEVEL|
              then clamp01 QUIET_VOLUME_LEVEL else (3 / 4 : ℚ), true⟩),
        [PlatformCall.idleQuery, PlatformCall.getVolume, PlatformCall.getMute]
          ++ (if (false : Bool) then [] else [PlatformCall.setMute true])
          ++ (if VOLUME_EPSILON < |(3 / 4 : ℚ) - QUIET_VOLUME_LEVEL|
              then [PlatformCall.setVolume (clamp01 QUIET_VOLUME_LEVEL)]
              else [])) ∧
    |(if VOLUME_EPSILON < |(3 / 4 : ℚ) - QUIET_VOLUME_LEVEL|
        then clamp01 QUIET_VOLUME_LEVEL else (3 / 4 : ℚ)) -
        QUIET_VOLUME_LEVEL| ≤ VOLUME_EPSILON :=
  claim_C3_lower_transition ⟨1⟩ 2000 initial_engine_state ⟨3 / 4, false⟩
    rfl (by decide)

/-- C4: a fault-free tick with idle time below the threshold and state
LOWERED restores the snapshot volume (clamped to `[0,1]`) and clears mute
only when the snapshot's mute flag was `false`; consequently, a run whose
pre-LOWERED audio state was `(v, muted = true)` with `v ∈ [0,1]` ends, after
lowering and restoring, with audio exactly `(v, muted = true)` — the engine
never unmutes a session the user had muted. -/
theorem claim_C4_restore_preserves_user_mute (store1 store2 : ThresholdStore)
    (i1 i2 : Nat) (es es2 : EngineState) (au2 : Audio) (v : ℚ)
    (hv0 : 0 ≤ v) (hv1 : v ≤ 1) (hlow : es.lowered = false)
    (hlow2 : es2.lowered = true)
    (h1 : inactivity_threshold store1 ≤ Duration.fromMillis i1)
    (h2 : Duration.fromMillis i2 < inactivity_threshold store2) :
    monitor_tick no_faults store2 i2 es2 au2 =
      (Except.ok ({ es2 with lowered := false },
          ⟨clamp01 es2.previous_volume,
            if es2.previous_mute_state then au2.muted else false⟩),
        [PlatformCall.idleQuery,
          PlatformCall.setVolume (clamp01 es2.previous_volume)]
          ++ (if es2.previous_mute_state then []
              else [PlatformCall.setMute false])) ∧
    (monitor_loop [⟨no_faults, store1, i1⟩, ⟨no_faults, store2, i2⟩]
        es ⟨v, true⟩).1 =
      Except.ok ((⟨false, v, true⟩ : EngineState), ⟨v, true⟩) := by
  have hclamp : clamp01 v = v := by
    simp [clamp01, hv0, hv1]
  refine ⟨monitor_tick_restore no_faults store2 i2 es2 au2 rfl rfl rfl
    hlow2 h2, ?_⟩
  have t1 := monitor_tick_lower no_faults store1 i1 es ⟨v, true⟩ rfl hlow h1
  have t2 := monitor_tick_restore no_faults store2 i2
    (⟨true, v, true⟩ : EngineState)
    ⟨if VOLUME_EPSILON < |v - QUIET_VOLUME_LEVEL|
        then clamp01 QUIET_VOLUME_LEVEL else v, true⟩
    rfl rfl rfl rfl h2
  simp only [monitor_loop, t1, t2]
  simp [hclamp]

/-- Witness for C4 at `v = 2/5` (the spec's `0.40`), threshold `1 s`, idle
`2000 ms` then `0 ms`. -/
theorem claim_C4_restore_preserves_user_mute_witness :
    monitor_tick no_faults ⟨1⟩ 0 (⟨true, (2 / 5 : ℚ), true⟩ : EngineState)
        ⟨0, true⟩ =
      (Except.ok (({ (⟨true, (2 / 5 : ℚ), true⟩ : EngineState) with
            lowered := false } : EngineState),
          ⟨clamp01 (2 / 5 : ℚ), if (true : Bool) then (true : Bool)
            else false⟩),
        [PlatformCall.idleQuery,
          PlatformCall.setVolume (clamp01 (2 / 5 : ℚ))]
          ++ (if (true : Bool) then [] else [PlatformCall.setMute false])) ∧
    (monitor_loop [⟨no_faults, ⟨1⟩, 2000⟩, ⟨no_faults, ⟨1⟩, 0⟩]
        initial_engine_state ⟨2 / 5, true⟩).1 =
      Except.ok ((⟨false, (2 / 5 : ℚ), true⟩ : EngineState),
        ⟨(2 / 5 : ℚ), true⟩) :=
  claim_C4_restore_preserves_user_mute ⟨1⟩ ⟨1⟩ 2000 0 initial_engine_state
    (⟨true, (2 / 5 : ℚ), true⟩ : EngineState) ⟨0, true⟩ (2 / 5)
    (by norm_num) (by norm_num) rfl rfl (by decide) (by decide)

/-- C7: starting from NORMAL, a run whose first tick sees idle time at or
above the threshold and whose every later tick still does performs the
transition action exactly once — the first tick issues the snapshot reads
and the conditional mute/volume writes, and every subsequent tick issues
only the idle query, holding the LOWERED state unchanged. -/
theorem claim_C7_transition_action_once (t0 : TickInput)
    (ts : List TickInput) (es : EngineState) (au : Audio)
    (hlow : es.lowered = false) (h0f : t0.faults = no_faults)
    (h0 : inactivity_threshold t0.store ≤ Duration.fromMillis t0.idleMs)
    (hts : ∀ t ∈ ts, t.faults.idleFails = false ∧
      inactivity_threshold t.store ≤ Duration.fromMillis t.idleMs) :
    monitor_loop (t0 :: ts) es au =
      (Except.ok ((⟨true, au.volume, au.muted⟩ : EngineState),
          ⟨if VOLUME_EPSILON < |au.volume - QUIET_VOLUME_LEVEL|
              then clamp01 QUIET_VOLUME_LEVEL else au.volume, true⟩),
        ([PlatformCall.idleQuery, PlatformCall.getVolume,
            PlatformCall.getMute]
          ++ (if au.muted then [] else [PlatformCall.setMute true])
          ++ (if VOLUME_EPSILON < |au.volume - QUIET_VOLUME_LEVEL|
              then [PlatformCall.setVolume (clamp01 QUIET_VOLUME_LEVEL)]
              else []))
          ++ ts.map fun _ => PlatformCall.idleQuery) := by
  have t1 := monitor_tick_lower t0.faults t0.store t0.idleMs es au h0f
    hlow h0
  have hold := monitor_loop_hold_lowered ts
    (⟨true, au.volume, au.muted⟩ : EngineState)
    ⟨if VOLUME_EPSILON < |au.volume - QUIET_VOLUME_LEVEL|
        then clamp01 QUIET_VOLUME_LEVEL else au.volume, true⟩ rfl hts
  simp only [monitor_loop, t1, hold]

/-- Witness for C7: two further ticks above threshold after the entry tick. -/
theorem claim_C7_transition_action_once_witness :
    monitor_loop
        [⟨no_faults, ⟨1⟩, 2000⟩, ⟨no_faults, ⟨1⟩, 3000⟩,
          ⟨no_faults, ⟨1⟩, 4000⟩] initial_engine_state ⟨1, false⟩ =
      (Except.ok ((⟨true, (1 : ℚ), false⟩ : EngineState),
          ⟨if VOLUME_EPSILON < |(1 : ℚ) - QUIET_VOLUME_LEVEL|
              then clamp01 QUIET_VOLUME_LEVEL else (1 : ℚ), true⟩),
        ([PlatformCall.idleQuery, PlatformCall.getVolume,
            PlatformCall.getMute]
          ++ (if (false : Bool) then [] else [PlatformCall.setMute true])
          ++ (if VOLUME_EPSILON < |(1 : ℚ) - QUIET_VOLUME_LEVEL|
              then [PlatformCall.setVolume (clamp01 QUIET_VOLUME_LEVEL)]
              else []))
          ++ List.map (fun _ => PlatformCall.idleQuery)
            [(⟨no_faults, ⟨1⟩, 3000⟩ : TickInput),
              ⟨no_faults, ⟨1⟩, 4000⟩]) :=
  claim_C7_transition_action_once ⟨no_faults, ⟨1⟩, 2000⟩
    [⟨no_faults, ⟨1⟩, 3000⟩, ⟨no_faults, ⟨1⟩, 4000⟩]
    initial_engine_state ⟨1, false⟩ rfl rfl (by decide) (by decide)

/-- C8 counterexample: on a non-supporting platform the claim fails as
stated. With `minutes = some 0` the threshold-setting command returns the
zero-threshold error, not the unsupported-platform error, so the command
does not deterministically return the unsupported error; and the startup
hook completes returning `()` — it logs the unsupported message instead of
returning any error to its caller. -/
theorem claim_C8_counterexample :
    (set_sound_inactivity_timeout false (some 0) initial_threshold_store).1 =
      Except.error zero_threshold_msg ∧
    zero_threshold_msg ≠ unsupported_msg ∧
    init_sound_inactivity_monitor false (Except.ok ()) =
      ((), [unsupported_msg]) := by
  refine ⟨rfl, ?_, rfl⟩
  decide

/-- C8 (amended): on a platform without the required support, the
threshold-setting command deterministically fails with the clear
unsupported-platform error and leaves the store unchanged for every minutes
value other than `some 0` (for `some 0` the zero-minutes validation rejects
it first, still a deterministic error); the startup hook does not return an
error to its caller but deterministically logs the unsupported-platform
message, whatever the monitor-start outcome would have been. -/
theorem claim_C8_unsupported_platform (minutes : Option Nat)
    (st : ThresholdStore) (startRes : Except String Unit)
    (hm : minutes ≠ some 0) :
    set_sound_inactivity_timeout false minutes st =
      (Except.error unsupported_msg, st) ∧
    init_sound_inactivity_monitor false startRes =
      ((), [unsupported_msg]) := by
  constructor
  · have hg : minutes.getD 5 ≠ 0 := by
      cases minutes with
      | none => simp
      | some k =>
        simp only [Option.getD_some]
        intro hk
        exact hm (by rw [hk])
    simp [set_sound_inactivity_timeout, hg]
  · rfl

/-- Witness for the amended C8 with an absent minutes value. -/
theorem claim_C8_unsupported_platform_witness :
    set_sound_inactivity_timeout false none initial_threshold_store =
      (Except.error unsupported_msg, initial_threshold_store) ∧
    init_sound_inactivity_monitor false (Except.ok ()) =
      ((), [unsupported_msg]) :=
  claim_C8_unsupported_platform none initial_threshold_store
    (Except.ok ()) (by decide)

/-- C9: when any platform call of a tick fails, the tick aborts at that
call — the failing call is the last call attempted and every call attempted
before it succeeded — and the error becomes the loop's terminal failure:
the loop over that tick and any later tick environments returns exactly
this error, processing nothing further. -/
theorem claim_C9_error_aborts_tick_and_loop (t : TickInput)
    (rest : List TickInput) (es : EngineState) (au : Audio)
    (e : PlatformCall) (calls : List PlatformCall)
    (h : monitor_tick t.faults t.store t.idleMs es au =
      (Except.error e, calls)) :
    calls.getLast? = some e ∧ call_fails t.faults e = true ∧
      (∀ c ∈ calls.dropLast, call_fails t.faults c = false) ∧
      monitor_loop (t :: rest) es au = (Except.error e, calls) := by
  obtain ⟨h1, h2, h3⟩ :=
    monitor_tick_error_shape t.faults t.store t.idleMs es au e calls h
  exact ⟨h1, h2, h3, monitor_loop_cons_error t rest es au e calls h⟩

/-- Witness for C9: the volume-snapshot read fails during a would-be
transition; no mute call is attempted and the loop stops with that error,
never processing the later tick. -/
theorem claim_C9_error_aborts_tick_and_loop_witness :
    [PlatformCall.idleQuery, PlatformCall.getVolume].getLast? =
      some PlatformCall.getVolume ∧
    call_fails (⟨false, true, false, false, false⟩ : Faults)
      PlatformCall.getVolume = true ∧
    (∀ c ∈ ([PlatformCall.idleQuery,
        PlatformCall.getVolume] : List PlatformCall).dropLast,
      call_fails (⟨false, true, false, false, false⟩ : Faults) c = false) ∧
    monitor_loop
        [⟨⟨false, true, false, false, false⟩, ⟨1⟩, 2000⟩,
          ⟨no_faults, ⟨1⟩, 2000⟩] initial_engine_state ⟨1, false⟩ =
      (Except.error PlatformCall.getVolume,
        [PlatformCall.idleQuery, PlatformCall.getVolume]) :=
  claim_C9_error_aborts_tick_and_loop
    ⟨⟨false, true, false, false, false⟩, ⟨1⟩, 2000⟩
    [⟨no_faults, ⟨1⟩, 2000⟩] initial_engine_state ⟨1, false⟩
    PlatformCall.getVolume [PlatformCall.idleQuery, PlatformCall.getVolume]
    rfl
